import Mathlib

/-!
Verification development for the QuestAI planning core.

The development shallowly embeds the Python sources under `backend/`:

* `mock_events.py` — offline event catalog, price/budget levels, heuristic
  scoring, filtering and search (`_price_to_level`, `_budget_to_level`,
  `_event_score`, `get_tool_candidates`, `search_mock_events`);
* `agentic.py` — the `AgenticController` decision loop (`run`);
* `orchestrator.py` — the fixed pipeline `plan` (its non-agentic branch);
* `schemas.py` — the pydantic models the controller produces and consumes.

Embedding conventions:

* Python strings are Lean `String`s; `str.strip`/`str.lower` are re-implemented
  over `String.data` (`strStrip`, `strLower`) so that everything reduces in the
  kernel.  All text involved is ASCII.
* Python `x or y` on strings/lists/options (falsy = `None`, `""`, `[]`, `0`)
  is made explicit by the `pyOr*` helpers.
* Python floats: the scoring deltas of `_event_score` (2.5, 1.5, 1.2, 1.0) are
  exact decimals; scores are represented as integers in TENTHS of a point
  (25, 15, 12, 10), which models the source's arithmetic exactly as rational
  arithmetic while staying kernel-computable.  Budget caps, which are only ever
  compared against the thresholds 0/20/45/75, stay `Rat`.
* Python `sorted(key=..., reverse=True)` is a stable descending sort; any two
  stable sorts under the same total preorder agree, so it is modelled by
  `List.insertionSort` with the reversed comparison.
* The external collaborators implemented in `agents.py` / `tools.py`
  (`ListenerAgent`, `WriterAgent`, `llm_json`, `tool_get_user_taste`,
  `tool_merge_tastes`, `tool_find_activities`) are not present under `src/`;
  the controller treats them as opaque total functions, so they are passed as
  parameters (a `Tools` record and a reasoner function), exactly matching the
  call contract in spec §6.  The one component a claim needs concretely,
  `PlannerAgent.run`, is modelled from the spec (see its doc comment).
-/

/-- Python `str.lower` restricted to ASCII case mapping (all repository text is
ASCII), implemented over the character list so the kernel can evaluate it. -/
def strLower (s : String) : String := String.mk (s.data.map Char.toLower)

/-- Whitespace characters removed by Python `str.strip()`. -/
def isPySpace (c : Char) : Bool :=
  c = ' ' || c = '\t' || c = '\n' || c = '\r' || c = Char.ofNat 11 || c = Char.ofNat 12

/-- Python `str.strip()`: drop leading and trailing whitespace. -/
def strStrip (s : String) : String :=
  String.mk (((s.data.dropWhile isPySpace).reverse.dropWhile isPySpace).reverse)

/-- Python `a or b` where `a` is an optional string (`None` and `""` are falsy). -/
def pyOrStr (a : Option String) (b : String) : String :=
  match a with
  | none => b
  | some s => if s = "" then b else s

/-- Python `a or b` producing an optional string (`b` itself may be `None`). -/
def pyOrOptStr (a b : Option String) : Option String :=
  match a with
  | none => b
  | some s => if s = "" then b else some s

/-- Python `a or b` where `a` is an optional list (`None` and `[]` are falsy). -/
def pyOrList {α : Type} (a : Option (List α)) (b : List α) : List α :=
  match a with
  | none => b
  | some l => if l.isEmpty then b else l

/-- Python truthiness of an optional string (`if not action`): `None` and the
empty string are falsy. -/
def pyTruthyOptStr (a : Option String) : Bool :=
  match a with
  | none => false
  | some s => s ≠ ""

/-- Python substring test `needle in hay` over character lists. -/
def listContainsSub (needle : List Char) : List Char → Bool
  | [] => needle.isEmpty
  | c :: rest => needle.isPrefixOf (c :: rest) || listContainsSub needle rest

/-- Python `needle in hay` for strings. -/
def pyInStr (needle hay : String) : Bool := listContainsSub needle.data hay.data

/-- Python `l[:n]` for an `Int` bound: a negative bound keeps all but the last
`|n|` elements (empty when `len + n ≤ 0`). -/
def pyTake {α : Type} (n : Int) (l : List α) : List α :=
  if 0 ≤ n then l.take n.toNat else l.take ((l.length : Int) + n).toNat

/-- One catalog entry of `mock_events.py`.  The fields the embedded logic never
reads (`lat`, `lng`, `distance_km`, `booking_url`, `maps_url`) are omitted:
they are carried data with no influence on scoring, filtering or ordering. -/
structure MockEvent where
  id : String
  title : String
  vibe : String
  price : String
  address : String
  tags : List String
  summary : String
  source : String
deriving DecidableEq

/-- The module-level catalog `_MOCK_EVENTS`, a dict with the two provider keys
in insertion order `google_places`, `eventbrite`. -/
structure MockDB where
  google_places : List MockEvent
  eventbrite : List MockEvent
deriving DecidableEq

/-- The `google_places` entries of `_MOCK_EVENTS` (presentational fields
dropped, see `MockEvent`). -/
def googlePlacesEvents : List MockEvent :=
  [ { id := "gp-charles-river-espl", title := "Charles River Esplanade",
      vibe := "outdoors", price := "free", address := "Storrow Dr, Boston, MA 02114",
      tags := ["park", "scenic", "running", "cycling"],
      summary := "Riverfront greenway with sunset views, perfect for picnics and casual walks.",
      source := "google_places" },
    { id := "gp-aeronaut-brewing", title := "Aeronaut Brewing Co.",
      vibe := "social", price := "$$", address := "14 Tyler St, Somerville, MA 02143",
      tags := ["brewery", "live music", "nightlife"],
      summary := "Community-oriented taproom with rotating events, trivia, and live sets.",
      source := "google_places" },
    { id := "gp-bow-market", title := "Bow Market",
      vibe := "creative", price := "$", address := "1 Bow Market Way, Somerville, MA 02143",
      tags := ["market", "artisanal", "food hall"],
      summary := "Open-air courtyard of indie food stalls, makers, and pop-up performances.",
      source := "google_places" },
    { id := "gp-the-sinclair", title := "The Sinclair",
      vibe := "music", price := "$$", address := "52 Church St, Cambridge, MA 02138",
      tags := ["concert venue", "nightlife", "indie"],
      summary := "Intimate Harvard Square venue hosting touring bands and themed DJ nights.",
      source := "google_places" },
    { id := "gp-nightshift-lovejoy", title := "Nightshift Brewing Lovejoy Wharf",
      vibe := "social", price := "$$", address := "1 Lovejoy Wharf, Boston, MA 02114",
      tags := ["brewery", "harbor", "patio"],
      summary := "Large taproom on the Boston Harbor with board games and frequent pop-up events.",
      source := "google_places" } ]

/-- The `eventbrite` entries of `_MOCK_EVENTS`. -/
def eventbriteEvents : List MockEvent :=
  [ { id := "eb-sunset-kayak", title := "Sunset Kayak Social on the Charles",
      vibe := "outdoors", price := "$$", address := "Charles River Canoe & Kayak, Cambridge, MA",
      tags := ["kayaking", "sunset", "fitness"],
      summary := "Group paddle with instructors, capped with snacks on the dock.",
      source := "eventbrite" },
    { id := "eb-vinyl-night", title := "Vinyl Night at Lamplighter Brewing",
      vibe := "music", price := "$", address := "Lamplighter Brewing Co., Cambridge, MA",
      tags := ["vinyl", "craft beer", "nightlife"],
      summary := "Bring your records, trade picks with the DJ, and enjoy small-batch pours.",
      source := "eventbrite" },
    { id := "eb-pop-up-market", title := "Central Square Night Market",
      vibe := "creative", price := "free", address := "Central Square, Cambridge, MA",
      tags := ["market", "art", "food trucks"],
      summary := "Monthly open-air bazaar with live DJs, street food, and local makers.",
      source := "eventbrite" },
    { id := "eb-board-game-cafe", title := "Board Game Meetup at Knight Moves",
      vibe := "cozy", price := "$", address := "Knight Moves Cafe, Brookline, MA",
      tags := ["board games", "cafe", "social"],
      summary := "Reserve a table and dive into strategy classics with other gamers.",
      source := "eventbrite" },
    { id := "eb-silent-disco", title := "Rooftop Silent Disco",
      vibe := "party", price := "$$", address := "Envoy Hotel Rooftop, Boston, MA",
      tags := ["dance", "nightlife", "skyline"],
      summary := "Choose your channel and dance the night away above the Seaport skyline.",
      source := "eventbrite" } ]

/-- The module-level catalog `_MOCK_EVENTS` of `mock_events.py`. -/
def _MOCK_EVENTS : MockDB :=
  { google_places := googlePlacesEvents, eventbrite := eventbriteEvents }

/-- `_PRICE_LEVELS`: price band ordering used by the scoring logic. -/
def _PRICE_LEVELS : List (String × Nat) :=
  [("free", 0), ("$", 1), ("$$", 2), ("$$$", 3), ("$$$$", 4)]

/-- `_price_to_level`: `None` and `""` give no level, otherwise the stripped,
lowercased band is looked up in `_PRICE_LEVELS` (unknown bands give `None`). -/
def _price_to_level (value : Option String) : Option Nat :=
  match value with
  | none => none
  | some v => if v = "" then none else _PRICE_LEVELS.lookup (strLower (strStrip v))

/-- `_lc_words`: drop falsy items, then strip and lowercase each. -/
def _lc_words (items : List String) : List String :=
  (items.filter (fun s => s ≠ "")).map (fun s => strLower (strStrip s))

/-- `_budget_to_level`: derive a price level from a numeric budget cap. -/
def _budget_to_level (budget_cap : Rat) : Nat :=
  if budget_cap ≤ 0 then 0
  else if budget_cap ≤ 20 then 1
  else if budget_cap ≤ 45 then 2
  else if budget_cap ≤ 75 then 3
  else 4

/-- The filters/query dict consumed by `_event_score` and `search_mock_events`
(`q, location, vibe, provider, likes, tags, limit, time_window, distance_cap`;
`location`, `time_window` and `distance_cap` are never read by the embedded
logic and are omitted).  A missing key is `none` / `[]`. -/
structure EventFilters where
  q : Option String := none
  vibe : Option String := none
  provider : Option String := none
  likes : List String := []
  tags : List String := []
  budget_cap : Option Rat := none
  limit : Option Int := none
deriving DecidableEq

/-- `_event_score`: heuristic score of one event against the query, in tenths
of a point (source deltas 2.5 / 1.5 / 1.2 / 1.0 / −1.0 become 25 / 15 / 12 /
10 / −10).  Set intersections are modelled by counting distinct lowercased
words (`List.dedup` keeps one occurrence of each, which is all that matters
for the count). -/
def _event_score (event : MockEvent) (query : EventFilters) : Int :=
  let vibe_query := strLower (strStrip (pyOrStr query.vibe ""))
  let s1 : Int :=
    if vibe_query ≠ "" ∧ strLower event.vibe = vibe_query then 25
    else if vibe_query ≠ "" ∧ vibe_query ∈ _lc_words event.tags then 15
    else 0
  let likes := (_lc_words query.likes).dedup
  let tagsq := (_lc_words query.tags).dedup
  let etags := (_lc_words event.tags).dedup
  let s2 : Int :=
    if likes ≠ [] then s1 + 12 * ((etags.filter (fun t => t ∈ likes)).length : Int) else s1
  let s3 : Int :=
    if tagsq ≠ [] then s2 + 10 * ((etags.filter (fun t => t ∈ tagsq)).length : Int) else s2
  match query.budget_cap with
  | none => s3
  | some cap =>
    match _price_to_level (some event.price) with
    | none => s3
    | some level => if level ≤ _budget_to_level cap then s3 + 10 else s3 - 10

/-- The stable descending order on scored pairs that models
`sort(key=lambda item: item[0], reverse=True)`. -/
def scoreGE (a b : Int × MockEvent) : Prop := b.1 ≤ a.1

instance : DecidableRel scoreGE := fun a b => inferInstanceAs (Decidable (b.1 ≤ a.1))

/-- `get_tool_candidates`: score the provider's catalog slice, sort it stably
by descending score, keep the top 20 and return (copies of) the events.
`dict(event)` copies are value copies, the identity in a pure embedding. -/
def get_tool_candidates (db : MockDB) (provider : String) (query : EventFilters) :
    List MockEvent :=
  let events :=
    if provider = "google_places" then db.google_places
    else if provider = "eventbrite" then db.eventbrite
    else []
  if events.isEmpty then []
  else
    let scored := events.map (fun e => (_event_score e query, e))
    ((List.insertionSort scoreGE scored).take 20).map Prod.snd

/-- The text/facet filter `_match` of `search_mock_events` (with the query
strings already normalized by the caller). -/
def eventMatches (vibe q : String) (e : MockEvent) : Bool :=
  if vibe ≠ "" ∧ strLower e.vibe ≠ vibe then false
  else if q ≠ "" ∧ ¬ (pyInStr q (strLower (e.title ++ " " ++ e.summary ++ " " ++ e.address)) = true) then false
  else true

/-- The effective result bound of `search_mock_events`:
`int(filters.get("limit") or 25)` — a missing or zero (falsy) limit is 25. -/
def resolvedLimit (filters : EventFilters) : Int :=
  match filters.limit with
  | none => 25
  | some n => if n = 0 then 25 else n

/-- The provider merge step of `search_mock_events`: the selected provider's
candidates, or both providers' in dict order. -/
def searchPool (db : MockDB) (filters : EventFilters) : List MockEvent :=
  let provider := strLower (strStrip (pyOrStr filters.provider ""))
  let providers :=
    if provider = "google_places" ∨ provider = "eventbrite" then [provider]
    else ["google_places", "eventbrite"]
  providers.flatMap (fun p => get_tool_candidates db p filters)

/-- The text/facet filtering step of `search_mock_events` (`_match` applied
with the normalized `vibe` and `q`). -/
def searchFiltered (db : MockDB) (filters : EventFilters) : List MockEvent :=
  (searchPool db filters).filter
    (eventMatches (strLower (strStrip (pyOrStr filters.vibe "")))
      (strLower (strStrip (pyOrStr filters.q ""))))

/-- `search_mock_events`: merge both providers (or the one selected), apply the
text/facet filters, re-score and stably re-sort across providers, and cut to
the resolved limit. -/
def search_mock_events (db : MockDB) (filters : EventFilters) : List MockEvent :=
  let rescored := (searchFiltered db filters).map (fun e => (_event_score e filters, e))
  pyTake (resolvedLimit filters) ((List.insertionSort scoreGE rescored).map Prod.snd)

/-- `UserTaste` from `schemas.py` (floats as `Rat`). -/
structure UserTaste where
  user_id : String
  likes : List String := []
  dislikes : List String := []
  vibes : List String := []
  budget_max : Option Rat := none
  distance_km_max : Option Rat := none
  tags : List String := []
deriving DecidableEq

/-- `PlanCard` from `schemas.py` (floats as `Rat`). -/
structure PlanCard where
  title : String
  subtitle : Option String := none
  time : Option String := none
  price : Option String := none
  vibe : Option String := none
  energy : Option String := none
  address : Option String := none
  lat : Option Rat := none
  lng : Option Rat := none
  distance_km : Option Rat := none
  booking_url : Option String := none
  maps_url : Option String := none
  summary : Option String := none
  group_score : Rat
  reasons : List String
  source : String
deriving DecidableEq

/-- `PlanResponse` from `schemas.py`. -/
structure PlanResponse where
  query_normalized : String
  merged_vibe : Option String := none
  energy_profile : Option String := none
  candidates : List PlanCard
  action_log : List String
deriving DecidableEq

/-- `GroupRequest` from `schemas.py` (floats as `Rat`). -/
structure GroupRequest where
  query_text : String
  user_ids : List String
  location_hint : Option String := none
  time_window : Option String := none
  vibe_hint : Option String := none
  budget_cap : Option Rat := none
  distance_km : Option Rat := none
  custom_likes : List String := []
  custom_tags : List String := []
deriving DecidableEq

/-- The dict returned by `ListenerAgent.run` (`agents.py`, external to the
embedded core), restricted to the keys `AgenticController` reads:
`primary_vibes`, `energy_level`, `time_hint`.  `none` models a missing key. -/
structure ListenerOut where
  primary_vibes : Option (List String) := none
  energy_level : Option String := none
  time_hint : Option String := none
deriving DecidableEq

/-- The dict returned by `tool_merge_tastes` (`tools.py`, external), restricted
to the keys the controller reads or writes: `merged_vibe`, `vibe`,
`energy_level`, `location`, `time_window`, `budget_cap`.  `none` models a
missing key; the merge output is assumed to be a non-falsy dict. -/
structure Merged where
  merged_vibe : Option String := none
  vibe : Option String := none
  energy_level : Option String := none
  location : Option String := none
  time_window : Option String := none
  budget_cap : Option Rat := none
deriving DecidableEq, Inhabited

/-- The `overrides` argument of the `merge_tastes` action. -/
structure Overrides where
  location : Option String := none
  time_window : Option String := none
  vibe : Option String := none
  energy_level : Option String := none
deriving DecidableEq, Inhabited

/-- The `args` dict of a reasoner decision. -/
structure DecisionArgs where
  user_ids : Option (List String) := none
  overrides : Option Overrides := none
deriving DecidableEq, Inhabited

/-- A reasoner decision `{action, args, rationale}`; `llm_json(...) or {}`
with a failing reasoner is the all-`none` decision. -/
structure Decision where
  action : Option String := none
  args : Option DecisionArgs := none
  rationale : Option String := none
deriving DecidableEq, Inhabited

/-- The controller's mutable state dict (`agentic.py`, lines 36-46). -/
structure CState where
  query : String
  user_ids : List String
  location : String
  time_window : Option String
  listener : ListenerOut
  tastes : List UserTaste
  merged : Option Merged
  raw_candidates : List MockEvent
  observations : List String
deriving DecidableEq

/-- The prompt dict `_decide` builds from the state (`agentic.py`, lines
17-23); `model_dump` on tastes is the identity in a value embedding. -/
structure DecidePrompt where
  query : String
  listener : ListenerOut
  tastes : List UserTaste
  merged : Option Merged
  observations : List String
deriving DecidableEq

/-- The external tool functions imported by `agentic.py` and
`orchestrator.py` from `agents.py` / `tools.py` (not under `src/`): per spec
§6 they are total, so they enter the embedding as plain functions. -/
structure Tools where
  tool_get_user_taste : String → UserTaste
  tool_merge_tastes : List UserTaste → Merged
  tool_find_activities : Merged → List MockEvent
  listener_run : String → ListenerOut
  writer_run : Merged → List MockEvent → List PlanCard

/-- The reasoner behind `_decide` (`llm_json`), indexed by the iteration
number so that arbitrary, even stateful, reasoner behaviour is covered. -/
def Reasoner : Type := Nat → DecidePrompt → Decision

/-- `_decide`'s prompt construction from the state. -/
def mkPrompt (st : CState) : DecidePrompt :=
  { query := st.query, listener := st.listener, tastes := st.tastes,
    merged := st.merged, observations := st.observations }

/-- Render an optional string inside an observation f-string the way Python
renders it (`None` without quotes). -/
def showOptStr (a : Option String) : String :=
  match a with
  | none => "None"
  | some s => s

/-- Render an optional budget cap inside an observation f-string.  Python
prints a float here; the exact digits never influence control flow (the
observations only feed the reasoner prompt). -/
def showOptRat (a : Option Rat) : String :=
  match a with
  | none => "None"
  | some q => toString q.num ++ "/" ++ toString q.den

/-- The initial controller state (`agentic.py`, lines 33-46). -/
def initState (tools : Tools) (req : GroupRequest) : CState :=
  { query := strStrip req.query_text,
    user_ids := req.user_ids,
    location := strStrip (pyOrStr req.location_hint "Boston, MA"),
    time_window :=
      (let t := strStrip (pyOrStr req.time_window "");
       if t = "" then none else some t),
    listener := tools.listener_run req.query_text,
    tastes := [],
    merged := none,
    raw_candidates := [],
    observations := [] }

/-- The vibe picked by `(listener.get("primary_vibes") or
[merged.get("merged_vibe", "chill")])[0]`: the first primary vibe when that
list is present and non-empty, else the merge's vibe, else `"chill"`. -/
def headVibe (listener : ListenerOut) (merged : Merged) : String :=
  match listener.primary_vibes with
  | some (v :: _) => v
  | _ => merged.merged_vibe.getD "chill"

/-- The listener-informed merge used identically at `agentic.py` lines 61-66
(fallback), lines 111-115 (`find_activities` precondition repair) and — per
spec §4.5 — inside `PlannerAgent.run`: merge the tastes, then set location,
time window, vibe and energy level from the listener output and defaults. -/
def plannerMerge (tools : Tools) (location : String) (time_window : Option String)
    (listener : ListenerOut) (tastes : List UserTaste) : Merged :=
  let merged := tools.tool_merge_tastes tastes
  { merged with
    location := some location,
    time_window := pyOrOptStr time_window listener.time_hint,
    vibe := some (headVibe listener merged),
    energy_level := some (listener.energy_level.getD "medium") }

/-- The merge of the `merge_tastes` action (`agentic.py`, lines 95-101):
like `plannerMerge` but every field may first be taken from the reasoner's
`overrides`. -/
def mergeWithOverrides (tools : Tools) (st : CState) (ov : Overrides) : Merged :=
  let merged := tools.tool_merge_tastes st.tastes
  { merged with
    location := some (pyOrStr ov.location st.location),
    time_window := pyOrOptStr ov.time_window (pyOrOptStr st.time_window st.listener.time_hint),
    vibe := some (pyOrStr ov.vibe (headVibe st.listener merged)),
    energy_level := some (pyOrStr ov.energy_level (st.listener.energy_level.getD "medium")) }

/-- The `get_tastes` action (`agentic.py`, lines 81-88): fetch tastes for the
args' user ids (falling back to the request's) and record an observation. -/
def execGetTastes (tools : Tools) (st : CState) (args : DecisionArgs) : CState :=
  let user_ids := pyOrList args.user_ids st.user_ids
  let tastes := user_ids.map tools.tool_get_user_taste
  { st with
    tastes := tastes,
    observations := st.observations ++
      ["Fetched tastes for " ++ toString tastes.length ++ " users"] }

/-- The `merge_tastes` action (`agentic.py`, lines 90-106): fetch tastes first
when none are present (precondition repair), then merge with overrides and
listener-informed defaults, and record an observation. -/
def execMergeTastes (tools : Tools) (st : CState) (args : DecisionArgs) : CState :=
  let st1 :=
    if st.tastes.isEmpty then
      { st with tastes := st.user_ids.map tools.tool_get_user_taste }
    else st
  let merged := mergeWithOverrides tools st1 (args.overrides.getD {})
  { st1 with
    merged := some merged,
    observations := st1.observations ++
      ["Merged tastes → vibe=" ++ showOptStr merged.vibe ++
       " budget_cap=" ++ showOptRat merged.budget_cap] }

/-- The `find_activities` action (`agentic.py`, lines 108-122): synthesize the
merged profile from the current tastes and defaults when it is missing
(precondition repair), search, and record an observation. -/
def execFindActivities (tools : Tools) (st : CState) : CState :=
  let merged :=
    match st.merged with
    | some m => m
    | none => plannerMerge tools st.location st.time_window st.listener st.tastes
  let raw := tools.tool_find_activities merged
  { st with
    merged := some merged,
    raw_candidates := raw,
    observations := st.observations ++
      ["Found " ++ toString raw.length ++ " activities"] }

/-- The `finalize` action (`agentic.py`, lines 124-135): score whatever merged
profile (default: empty dict) and raw candidates are in the state. -/
def finalizeResponse (tools : Tools) (st : CState) (log : List String) : PlanResponse :=
  let merged := st.merged.getD {}
  let cards := tools.writer_run merged st.raw_candidates
  { query_normalized := st.query,
    merged_vibe := some (merged.vibe.getD "chill"),
    energy_profile := some (merged.energy_level.getD "medium"),
    candidates := cards,
    action_log := log ++ ["Writer: scored " ++ toString cards.length ++ " candidates"] }

/-- The post-loop construction (`agentic.py`, lines 140-151), reached when the
loop breaks on an unknown action or exhausts its 7 iterations: the same
scoring as `finalize`, but the writer log entry carries a `(loop-exit)`
suffix. -/
def loopExitResponse (tools : Tools) (st : CState) (log : List String) : PlanResponse :=
  let merged := st.merged.getD {}
  let cards := tools.writer_run merged st.raw_candidates
  { query_normalized := st.query,
    merged_vibe := some (match st.merged with
      | some m => m.vibe.getD "chill"
      | none => "chill"),
    energy_profile := some (match st.merged with
      | some m => m.energy_level.getD "medium"
      | none => "medium"),
    candidates := cards,
    action_log := log ++
      ["Writer: scored " ++ toString cards.length ++ " candidates (loop-exit)"] }

/-- The deterministic fallback (`agentic.py`, lines 57-79), built when the
reasoner returns no action: full get-tastes → merge → search → write pipeline.
Whenever this branch is reached `default_plan` is still `None` (it is returned
immediately after being set), so the lazy-once caching collapses to a direct
construction. -/
def fallbackResponse (tools : Tools) (req : GroupRequest) (st : CState)
    (log : List String) : PlanResponse :=
  let tastes := req.user_ids.map tools.tool_get_user_taste
  let merged := plannerMerge tools st.location st.time_window st.listener tastes
  let raw := tools.tool_find_activities merged
  let cards := tools.writer_run merged raw
  { query_normalized := st.query,
    merged_vibe := some (merged.vibe.getD "chill"),
    energy_profile := some (merged.energy_level.getD "medium"),
    candidates := cards,
    action_log := log ++
      ["Planner: merged tastes & fetched activities (fallback)",
       "Writer: scored " ++ toString cards.length ++ " candidates"] }

/-- The decision loop of `AgenticController.run` (`agentic.py`, lines 51-151):
`fuel` counts the remaining iterations of `for step in range(1, 8)` (so the
iteration number is `7 - fuel` in the recursive case), and the second result
component counts the calls made to the decision function.  Branches in source
order: no action → fallback; the four known actions; unknown action → break
to the post-loop construction, which is also the fuel-0 result. -/
def runLoop (tools : Tools) (llm : Reasoner) (req : GroupRequest) :
    Nat → CState → List String → PlanResponse × Nat
  | 0, st, log => (loopExitResponse tools st log, 0)
  | Nat.succ fuel, st, log =>
    let d := llm (7 - fuel) (mkPrompt st)
    let args := d.args.getD {}
    if pyTruthyOptStr d.action = false then
      (fallbackResponse tools req st log, 1)
    else
      let a := d.action.getD ""
      if a = "get_tastes" then
        let r := runLoop tools llm req fuel (execGetTastes tools st args)
          (log ++ ["Controller:get_tastes"])
        (r.1, r.2 + 1)
      else if a = "merge_tastes" then
        let r := runLoop tools llm req fuel (execMergeTastes tools st args)
          (log ++ ["Controller:merge_tastes"])
        (r.1, r.2 + 1)
      else if a = "find_activities" then
        let r := runLoop tools llm req fuel (execFindActivities tools st)
          (log ++ ["Controller:find_activities"])
        (r.1, r.2 + 1)
      else if a = "finalize" then
        (finalizeResponse tools st log, 1)
      else
        (loopExitResponse tools st log, 1)

/-- `AgenticController.run` with its decision-call counter: seed the log with
the listener entry, then run the bounded loop. -/
def agenticRunAux (tools : Tools) (llm : Reasoner) (req : GroupRequest) :
    PlanResponse × Nat :=
  runLoop tools llm req 7 (initState tools req) ["Listener: parsed vibes/time/budget"]

/-- `AgenticController.run` (`agentic.py`, lines 29-151). -/
def agenticRun (tools : Tools) (llm : Reasoner) (req : GroupRequest) : PlanResponse :=
  (agenticRunAux tools llm req).1

/-- Modelled from the spec: `PlannerAgent.run` lives in `agents.py`, which is
not under `src/`.  Spec §4.5 describes the fixed pipeline stage it implements
— one `TasteSource` call per user, then `TasteMerger` with listener-informed
overrides (location from the given fallback, time window falling back to the
intent's time hint, vibe to the intent's top vibe, energy to the intent's
energy level), then `CandidateSource` — and §4.6 step 2 / §8 state that the
agentic no-action fallback runs the same algorithm. -/
def plannerAgentRun (tools : Tools) (user_ids : List String) (l_out : ListenerOut)
    (location : String) (time_window : Option String) : Merged × List MockEvent :=
  let tastes := user_ids.map tools.tool_get_user_taste
  let merged := plannerMerge tools location time_window l_out tastes
  (merged, tools.tool_find_activities merged)

/-- `plan` of `orchestrator.py` in its fixed-pipeline branch (the
`USE_AGENTIC` switch at lines 14-16 delegates to `agenticRun` and is outside
this definition): listener → planner → writer, with the three action-log
entries of lines 18-32. -/
def orchestratorPlan (tools : Tools) (req : GroupRequest) : PlanResponse :=
  let l_out := tools.listener_run req.query_text
  let pr := plannerAgentRun tools req.user_ids l_out
    (pyOrStr req.location_hint "Boston, MA") req.time_window
  let cards := tools.writer_run pr.1 pr.2
  { query_normalized := strStrip req.query_text,
    merged_vibe := some (pr.1.vibe.getD "chill"),
    energy_profile := some (pr.1.energy_level.getD "medium"),
    candidates := cards,
    action_log := ["Listener: parsed vibes/time/budget",
                   "Planner: merged tastes & fetched activities",
                   "Writer: scored " ++ toString cards.length ++ " candidates"] }

/-- Modelled from the spec: the merged group profile as §4.4's Ranker
("Writer", `agents.py`, not under `src/`) consumes it — `vibe`,
`liked_keywords`, `tag_keywords`, `budget_cap`, `distance_cap`. -/
structure SpecMergedProfile where
  vibe : Option String := none
  liked_keywords : List String := []
  tag_keywords : List String := []
  budget_cap : Option Rat := none
  distance_cap : Option Rat := none
deriving DecidableEq

/-- Modelled from the spec: the candidate fields §4.4's scoring table reads —
`vibe`, `price_band`, `tags`, `distance_km` (each may be missing). -/
structure SpecCandidate where
  vibe : Option String := none
  price_band : Option String := none
  tags : List String := []
  distance_km : Option Rat := none
deriving DecidableEq

/-- Modelled from the spec: the Ranker's per-candidate scoring of §4.4
(`agents.py` is not under `src/`).  Signals in table order, each adding its
delta (in tenths of a point) and its reason when it fires: vibe exact match
+2.5 with reason `matches your group's <vibe> vibe`; otherwise vibe tag match
+1.5 with `tagged with <vibe>`; +1.2 per liked-keyword overlap and +1.0 per
tag-keyword overlap (one reason per matched term in keyword order; the spec
leaves the exact per-term text open, the matched term itself is used);
budget fit ±1.0 with `within budget` on the bonus only; distance fit ±1.0
with `nearby` on the bonus only.  All matching is case-insensitive. -/
def rankerSignals (m : SpecMergedProfile) (c : SpecCandidate) : Int × List String :=
  let ctags := c.tags.map strLower
  let vibeRes : Int × List String :=
    match m.vibe with
    | none => (0, [])
    | some v =>
      if (match c.vibe with
          | some cv => strLower cv == strLower v
          | none => false : Bool) then
        (25, ["matches your group's " ++ v ++ " vibe"])
      else if strLower v ∈ ctags then (15, ["tagged with " ++ v])
      else (0, [])
  let likedHits := m.liked_keywords.filter (fun kw => strLower kw ∈ ctags)
  let tagHits := m.tag_keywords.filter (fun kw => strLower kw ∈ ctags)
  let budget : Int × List String :=
    match m.budget_cap, c.price_band with
    | some cap, some band =>
      (match _price_to_level (some band) with
       | some lvl => if lvl ≤ _budget_to_level cap then ((10 : Int), ["within budget"])
                     else (-10, [])
       | none => (0, []))
    | _, _ => (0, [])
  let dist : Int × List String :=
    match m.distance_cap, c.distance_km with
    | some cap, some d => if d ≤ cap then ((10 : Int), ["nearby"]) else (-10, [])
    | _, _ => (0, [])
  (vibeRes.1 + 12 * likedHits.length + 10 * tagHits.length + budget.1 + dist.1,
   vibeRes.2 ++ likedHits ++ tagHits ++ budget.2 ++ dist.2)

/-- Conversion from the tenths-of-a-point score representation back to the
source's decimal scale. -/
def pointsOfTenths (n : Int) : Rat := (n : Rat) / 10

/-- One call against the `mock_events.py` module: either `get_tool_candidates`
or `search_mock_events`. -/
inductive MockOp where
  | gtc (provider : String) (query : EventFilters)
  | sme (filters : EventFilters)

/-- Execute one call against the module state.  Both functions only read the
catalog (`_MOCK_EVENTS` is never assigned or mutated in place; every returned
event is a fresh `dict(event)` copy), so the state-passing translation
returns the catalog unchanged alongside the result. -/
def runOp (db : MockDB) : MockOp → MockDB × List MockEvent
  | MockOp.gtc provider query => (db, get_tool_candidates db provider query)
  | MockOp.sme filters => (db, search_mock_events db filters)

/-- Thread the module state through a sequence of calls. -/
def runOps (db : MockDB) : List MockOp → MockDB
  | [] => db
  | op :: rest => runOps (runOp db op).1 rest

/-- A simple total instantiation of the external collaborators, used to
evaluate the controller on concrete inputs. -/
def trivTools : Tools :=
  { tool_get_user_taste := fun uid => { user_id := uid },
    tool_merge_tastes := fun _ => {},
    tool_find_activities := fun _ => [],
    listener_run := fun _ => {},
    writer_run := fun _ _ => [] }

/-- A concrete planning request. -/
def reqZero : GroupRequest := { query_text := "fun tonight", user_ids := ["u1"] }

/-- A reasoner that always answers with an unknown action name. -/
def llmBogus : Reasoner := fun _ _ => { action := some "bogus_action" }

/-- A reasoner that never returns an action (unavailable / malformed). -/
def llmNone : Reasoner := fun _ _ => {}

/-- A reasoner that always asks for `get_tastes` and never finalizes. -/
def llmGet : Reasoner := fun _ _ => { action := some "get_tastes" }

/-- Whatever the loop does, it only ever appends to the action log it was
"started" with. -/
theorem runLoop_log_prefix (tools : Tools) (llm : Reasoner) (req : GroupRequest) :
    ∀ (fuel : Nat) (st : CState) (log : List String),
    ∃ t, ((runLoop tools llm req fuel st log).1).action_log = log ++ t := by
  intro fuel
  induction fuel with
  | zero =>
    intro st log
    exact ⟨_, rfl⟩
  | succ fuel ih =>
    intro st log
    simp only [runLoop]
    split
    · exact ⟨_, rfl⟩
    · split
      · obtain ⟨t, ht⟩ := ih (execGetTastes tools st
          ((llm (7 - fuel) (mkPrompt st)).args.getD {})) (log ++ ["Controller:get_tastes"])
        exact ⟨_, by rw [ht, List.append_assoc]⟩
      · split
        · obtain ⟨t, ht⟩ := ih _ (log ++ ["Controller:merge_tastes"])
          exact ⟨_, by rw [ht, List.append_assoc]⟩
        · split
          · obtain ⟨t, ht⟩ := ih _ (log ++ ["Controller:find_activities"])
            exact ⟨_, by rw [ht, List.append_assoc]⟩
          · split
            · exact ⟨_, rfl⟩
            · exact ⟨_, rfl⟩

/-- The loop makes at most as many decision calls as it has fuel. -/
theorem runLoop_calls_le (tools : Tools) (llm : Reasoner) (req : GroupRequest) :
    ∀ (fuel : Nat) (st : CState) (log : List String),
    (runLoop tools llm req fuel st log).2 ≤ fuel := by
  intro fuel
  induction fuel with
  | zero => intro st log; exact Nat.le_refl 0
  | succ fuel ih =>
    intro st log
    simp only [runLoop]
    split
    · exact Nat.succ_le_succ (Nat.zero_le _)
    · split
      · exact Nat.succ_le_succ (ih _ _)
      · split
        · exact Nat.succ_le_succ (ih _ _)
        · split
          · exact Nat.succ_le_succ (ih _ _)
          · split
            · exact Nat.succ_le_succ (Nat.zero_le _)
            · exact Nat.succ_le_succ (Nat.zero_le _)

/-- C2: for every request and every reasoner behaviour — the external tools
being total functions by the embedding — `AgenticController.run` returns a
complete `PlanResponse` whose action log is non-empty and starts with the
initial Listener entry; being a total Lean function, no path raises to the
caller. -/
theorem run_total_log_nonempty (tools : Tools) (llm : Reasoner) (req : GroupRequest) :
    (agenticRun tools llm req).action_log.head? =
      some "Listener: parsed vibes/time/budget" ∧
    (agenticRun tools llm req).action_log ≠ [] := by
  obtain ⟨t, ht⟩ := runLoop_log_prefix tools llm req 7 (initState tools req)
    ["Listener: parsed vibes/time/budget"]
  unfold agenticRun agenticRunAux
  rw [ht]
  exact ⟨rfl, by simp⟩

/-- C3: for every request and every reasoner behaviour, the controller calls
the decision function at most 7 times before terminating with a result. -/
theorem run_at_most_seven_decisions (tools : Tools) (llm : Reasoner) (req : GroupRequest) :
    (agenticRunAux tools llm req).2 ≤ 7 :=
  runLoop_calls_le tools llm req 7 (initState tools req)
    ["Listener: parsed vibes/time/budget"]

/-- C1 (amended): an action string outside the known set breaks the decision
loop immediately, but the result is the post-loop construction — the writer
scores whatever merged profile and raw candidates the state holds (not the
full get-tastes/merge/search fallback pipeline), the log gains a
`(loop-exit)` writer entry, no observation records the unknown action, and no
error reaches the caller. -/
theorem unknown_action_breaks_to_loop_exit (tools : Tools) (llm : Reasoner)
    (req : GroupRequest) (fuel : Nat) (st : CState) (log : List String)
    (h1 : pyTruthyOptStr (llm (7 - fuel) (mkPrompt st)).action = true)
    (h2 : ¬ (llm (7 - fuel) (mkPrompt st)).action.getD "" ∈
      (["get_tastes", "merge_tastes", "find_activities", "finalize"] : List String)) :
    runLoop tools llm req (fuel + 1) st log = (loopExitResponse tools st log, 1) := by
  simp only [List.mem_cons, List.mem_singleton, not_or] at h2
  obtain ⟨n1, n2, n3, n4⟩ := h2
  simp only [runLoop, h1, n1, n2, n3, n4, if_false, Bool.true_eq_false]

/-- C1 witness: a reasoner answering `bogus_action` on the first iteration
drives the loop straight to the post-loop construction. -/
theorem unknown_action_breaks_to_loop_exit_witness :
    runLoop trivTools llmBogus reqZero (6 + 1)
      (initState trivTools reqZero) ["Listener: parsed vibes/time/budget"] =
    (loopExitResponse trivTools (initState trivTools reqZero)
      ["Listener: parsed vibes/time/budget"], 1) := by
  have h1 : pyTruthyOptStr
      (llmBogus (7 - 6) (mkPrompt (initState trivTools reqZero))).action = true := by decide
  have h2 : ¬ (llmBogus (7 - 6) (mkPrompt (initState trivTools reqZero))).action.getD "" ∈
      (["get_tastes", "merge_tastes", "find_activities", "finalize"] : List String) := by decide
  exact unknown_action_breaks_to_loop_exit trivTools llmBogus reqZero 6
    (initState trivTools reqZero) ["Listener: parsed vibes/time/budget"] h1 h2

/-- C1 counterexample: with an unknown action, the returned plan is NOT the
deterministic no-action fallback plan the claim names — on this request the
two differ (the fallback log has a Planner entry, the loop-exit log has a
`(loop-exit)` writer entry instead). -/
theorem unknown_action_not_fallback_cex :
    agenticRun trivTools llmBogus reqZero ≠
      fallbackResponse trivTools reqZero (initState trivTools reqZero)
        ["Listener: parsed vibes/time/budget"] := by decide

/-- A decision whose action is one of the three known non-terminating
actions. -/
def knownNonFinal (d : Decision) : Prop :=
  pyTruthyOptStr d.action = true ∧
  (d.action.getD "" = "get_tastes" ∨ d.action.getD "" = "merge_tastes" ∨
   d.action.getD "" = "find_activities")

instance (d : Decision) : Decidable (knownNonFinal d) :=
  inferInstanceAs (Decidable (_ ∧ _))

/-- The state/log evolution of the loop while the reasoner keeps returning
known non-terminating actions (the `else` arm stands for `find_activities`;
under `knownNonFinal` the three arms are exhaustive). -/
def iterKnown (tools : Tools) (llm : Reasoner) : Nat → CState × List String → CState × List String
  | 0, p => p
  | Nat.succ fuel, p =>
    let d := llm (7 - fuel) (mkPrompt p.1)
    let args := d.args.getD {}
    let a := d.action.getD ""
    iterKnown tools llm fuel
      (if a = "get_tastes" then (execGetTastes tools p.1 args, p.2 ++ ["Controller:get_tastes"])
       else if a = "merge_tastes" then
        (execMergeTastes tools p.1 args, p.2 ++ ["Controller:merge_tastes"])
       else (execFindActivities tools p.1, p.2 ++ ["Controller:find_activities"]))

/-- While every decision is a known non-terminating action, the loop spends
all its fuel stepping the state and ends in the post-loop construction, with
one decision call per unit of fuel. -/
theorem runLoop_all_known (tools : Tools) (llm : Reasoner) (req : GroupRequest)
    (h : ∀ i p, knownNonFinal (llm i p)) :
    ∀ (fuel : Nat) (st : CState) (log : List String),
    runLoop tools llm req fuel st log =
      (loopExitResponse tools (iterKnown tools llm fuel (st, log)).1
        (iterKnown tools llm fuel (st, log)).2, fuel) := by
  intro fuel
  induction fuel with
  | zero => intro st log; rfl
  | succ fuel ih =>
    intro st log
    obtain ⟨ht, hor⟩ := h (7 - fuel) (mkPrompt st)
    rcases hor with h1 | h1 | h1 <;>
      simp [runLoop, iterKnown, ht, h1, ih]

/-- The post-loop construction and the explicit `finalize` action agree on
every response field except the final log entry, which gains the
`(loop-exit)` suffix. -/
theorem loopExit_matches_finalize (tools : Tools) (st : CState) (log : List String) :
    (loopExitResponse tools st log).candidates = (finalizeResponse tools st log).candidates ∧
    (loopExitResponse tools st log).query_normalized =
      (finalizeResponse tools st log).query_normalized ∧
    (loopExitResponse tools st log).merged_vibe = (finalizeResponse tools st log).merged_vibe ∧
    (loopExitResponse tools st log).energy_profile =
      (finalizeResponse tools st log).energy_profile ∧
    (loopExitResponse tools st log).action_log =
      log ++ ["Writer: scored " ++
        toString (finalizeResponse tools st log).candidates.length ++
        " candidates (loop-exit)"] ∧
    (finalizeResponse tools st log).action_log =
      log ++ ["Writer: scored " ++
        toString (finalizeResponse tools st log).candidates.length ++ " candidates"] := by
  unfold loopExitResponse finalizeResponse
  refine ⟨rfl, rfl, ?_, ?_, rfl, rfl⟩
  · cases st.merged <;> rfl
  · cases st.merged <;> rfl

/-- C5 (amended): when all 7 iterations run known non-finalize actions, the
controller ends in the post-loop construction over the accumulated state:
the same scoring, cards and response fields as the explicit `finalize` on
that state, with exactly 7 decision calls, but the appended writer log entry
carries a `(loop-exit)` suffix instead of the finalize entry. -/
theorem exhausted_loop_same_scoring_loop_exit_entry (tools : Tools) (llm : Reasoner)
    (req : GroupRequest) (h : ∀ i p, knownNonFinal (llm i p)) :
    agenticRun tools llm req =
      loopExitResponse tools
        (iterKnown tools llm 7 (initState tools req,
          ["Listener: parsed vibes/time/budget"])).1
        (iterKnown tools llm 7 (initState tools req,
          ["Listener: parsed vibes/time/budget"])).2 ∧
    (agenticRunAux tools llm req).2 = 7 ∧
    (agenticRun tools llm req).candidates =
      (finalizeResponse tools
        (iterKnown tools llm 7 (initState tools req,
          ["Listener: parsed vibes/time/budget"])).1
        (iterKnown tools llm 7 (initState tools req,
          ["Listener: parsed vibes/time/budget"])).2).candidates ∧
    (agenticRun tools llm req).action_log =
      (iterKnown tools llm 7 (initState tools req,
        ["Listener: parsed vibes/time/budget"])).2 ++
      ["Writer: scored " ++
        toString (agenticRun tools llm req).candidates.length ++
        " candidates (loop-exit)"] := by
  have hrun := runLoop_all_known tools llm req h 7 (initState tools req)
    ["Listener: parsed vibes/time/budget"]
  have hm := loopExit_matches_finalize tools
    (iterKnown tools llm 7 (initState tools req, ["Listener: parsed vibes/time/budget"])).1
    (iterKnown tools llm 7 (initState tools req, ["Listener: parsed vibes/time/budget"])).2
  have ha : agenticRun tools llm req =
      loopExitResponse tools
        (iterKnown tools llm 7 (initState tools req,
          ["Listener: parsed vibes/time/budget"])).1
        (iterKnown tools llm 7 (initState tools req,
          ["Listener: parsed vibes/time/budget"])).2 := by
    unfold agenticRun agenticRunAux
    rw [hrun]
  refine ⟨ha, ?_, ?_, ?_⟩
  · unfold agenticRunAux
    rw [hrun]
  · rw [ha]; exact hm.1
  · rw [ha]
    rw [hm.2.2.2.2.1]
    have : (loopExitResponse tools
        (iterKnown tools llm 7 (initState tools req,
          ["Listener: parsed vibes/time/budget"])).1
        (iterKnown tools llm 7 (initState tools req,
          ["Listener: parsed vibes/time/budget"])).2).candidates =
      (finalizeResponse tools
        (iterKnown tools llm 7 (initState tools req,
          ["Listener: parsed vibes/time/budget"])).1
        (iterKnown tools llm 7 (initState tools req,
          ["Listener: parsed vibes/time/budget"])).2).candidates := hm.1
    rw [this]

/-- C5 witness: seven consecutive `get_tastes` decisions on a concrete
request. -/
theorem exhausted_loop_witness :
    agenticRun trivTools llmGet reqZero =
      loopExitResponse trivTools
        (iterKnown trivTools llmGet 7 (initState trivTools reqZero,
          ["Listener: parsed vibes/time/budget"])).1
        (iterKnown trivTools llmGet 7 (initState trivTools reqZero,
          ["Listener: parsed vibes/time/budget"])).2 ∧
    (agenticRunAux trivTools llmGet reqZero).2 = 7 ∧
    (agenticRun trivTools llmGet reqZero).candidates =
      (finalizeResponse trivTools
        (iterKnown trivTools llmGet 7 (initState trivTools reqZero,
          ["Listener: parsed vibes/time/budget"])).1
        (iterKnown trivTools llmGet 7 (initState trivTools reqZero,
          ["Listener: parsed vibes/time/budget"])).2).candidates ∧
    (agenticRun trivTools llmGet reqZero).action_log =
      (iterKnown trivTools llmGet 7 (initState trivTools reqZero,
        ["Listener: parsed vibes/time/budget"])).2 ++
      ["Writer: scored " ++
        toString (agenticRun trivTools llmGet reqZero).candidates.length ++
        " candidates (loop-exit)"] :=
  exhausted_loop_same_scoring_loop_exit_entry trivTools llmGet reqZero
    (fun _ _ => (by decide : knownNonFinal ({ action := some "get_tastes" } : Decision)))

/-- C5 counterexample: after seven `get_tastes` decisions the appended writer
entry is NOT the entry the explicit `finalize` action would append (it carries
the `(loop-exit)` suffix), refuting the "same writer log entry" part of the
claim. -/
theorem exhausted_loop_entry_differs_cex :
    (agenticRun trivTools llmGet reqZero).action_log.getLast? ≠
      some ("Writer: scored " ++
        toString (agenticRun trivTools llmGet reqZero).candidates.length ++
        " candidates") := by decide

/-- Stripping is the identity on the effective location when the request's
location hint carries no outer whitespace. -/
theorem strip_pyOr_loc (o : Option String)
    (h : match o with | some s => strStrip s = s | none => True) :
    strStrip (pyOrStr o "Boston, MA") = pyOrStr o "Boston, MA" := by
  cases o with
  | none => decide
  | some s =>
    by_cases hs : s = ""
    · subst hs; decide
    · simpa [pyOrStr, hs] using h

/-- The controller's normalized time window (`(tw or "").strip() or None`)
and the raw time window resolve identically against the listener hint when
the request's time window carries no outer whitespace. -/
theorem tw_align (o hint : Option String)
    (h : match o with | some s => strStrip s = s | none => True) :
    pyOrOptStr ((fun t => if t = "" then none else some t) (strStrip (pyOrStr o ""))) hint =
      pyOrOptStr o hint := by
  cases o with
  | none => simp [pyOrStr, pyOrOptStr]; rfl
  | some s =>
    by_cases hs : s = ""
    · subst hs; simp [pyOrStr, pyOrOptStr]; rfl
    · have hss : strStrip s = s := by simpa using h
      simp [pyOrStr, pyOrOptStr, hs, hss]

/-- C4 (amended): when the reasoner returns no action on the first decision —
and the request's location hint and time window, when present, carry no outer
whitespace — the agentic result equals the fixed pipeline's result in
normalized query, merged vibe, energy profile and candidates; the two action
logs agree except that the agentic Planner entry carries a `(fallback)`
suffix. -/
theorem no_action_fallback_matches_pipeline (tools : Tools) (llm : Reasoner)
    (req : GroupRequest)
    (h1 : pyTruthyOptStr (llm 1 (mkPrompt (initState tools req))).action = false)
    (hloc : match req.location_hint with | some s => strStrip s = s | none => True)
    (htw : match req.time_window with | some s => strStrip s = s | none => True) :
    (agenticRun tools llm req).query_normalized =
      (orchestratorPlan tools req).query_normalized ∧
    (agenticRun tools llm req).merged_vibe = (orchestratorPlan tools req).merged_vibe ∧
    (agenticRun tools llm req).energy_profile =
      (orchestratorPlan tools req).energy_profile ∧
    (agenticRun tools llm req).candidates = (orchestratorPlan tools req).candidates ∧
    (agenticRun tools llm req).action_log =
      ["Listener: parsed vibes/time/budget",
       "Planner: merged tastes & fetched activities (fallback)",
       "Writer: scored " ++
         toString (orchestratorPlan tools req).candidates.length ++ " candidates"] ∧
    (orchestratorPlan tools req).action_log =
      ["Listener: parsed vibes/time/budget",
       "Planner: merged tastes & fetched activities",
       "Writer: scored " ++
         toString (orchestratorPlan tools req).candidates.length ++ " candidates"] := by
  have ha : agenticRun tools llm req =
      fallbackResponse tools req (initState tools req)
        ["Listener: parsed vibes/time/budget"] := by
    unfold agenticRun agenticRunAux
    simp [runLoop, h1]
  have hkey : plannerMerge tools (initState tools req).location
      (initState tools req).time_window (initState tools req).listener
      (req.user_ids.map tools.tool_get_user_taste) =
      plannerMerge tools (pyOrStr req.location_hint "Boston, MA") req.time_window
        (tools.listener_run req.query_text)
        (req.user_ids.map tools.tool_get_user_taste) := by
    unfold plannerMerge
    simp only [initState]
    rw [strip_pyOr_loc req.location_hint hloc]
    rw [tw_align req.time_window (tools.listener_run req.query_text).time_hint htw]
  rw [ha]
  unfold fallbackResponse orchestratorPlan plannerAgentRun
  simp only [hkey, and_self, and_true, true_and]
  try exact ⟨rfl, rfl, rfl, rfl, rfl, rfl⟩
  try trivial

/-- C4 witness: a silent reasoner on a concrete whitespace-free request. -/
theorem no_action_fallback_witness :
    (agenticRun trivTools llmNone reqZero).query_normalized =
      (orchestratorPlan trivTools reqZero).query_normalized ∧
    (agenticRun trivTools llmNone reqZero).merged_vibe =
      (orchestratorPlan trivTools reqZero).merged_vibe ∧
    (agenticRun trivTools llmNone reqZero).energy_profile =
      (orchestratorPlan trivTools reqZero).energy_profile ∧
    (agenticRun trivTools llmNone reqZero).candidates =
      (orchestratorPlan trivTools reqZero).candidates ∧
    (agenticRun trivTools llmNone reqZero).action_log =
      ["Listener: parsed vibes/time/budget",
       "Planner: merged tastes & fetched activities (fallback)",
       "Writer: scored " ++
         toString (orchestratorPlan trivTools reqZero).candidates.length ++
         " candidates"] ∧
    (orchestratorPlan trivTools reqZero).action_log =
      ["Listener: parsed vibes/time/budget",
       "Planner: merged tastes & fetched activities",
       "Writer: scored " ++
         toString (orchestratorPlan trivTools reqZero).candidates.length ++
         " candidates"] :=
  no_action_fallback_matches_pipeline trivTools llmNone reqZero (by decide)
    trivial trivial

/-- C4 counterexample: with everything else equal, the full responses still
differ — the fallback's Planner log entry carries a `(fallback)` suffix the
fixed pipeline's entry lacks. -/
theorem no_action_result_not_equal_cex :
    agenticRun trivTools llmNone reqZero ≠ orchestratorPlan trivTools reqZero := by
  decide

/-- C6: precondition repair.  `merge_tastes` executed with no tastes first
fetches tastes for the request's user ids and merges those; `find_activities`
executed with no merged profile first synthesizes one from the current tastes
and listener-informed defaults and searches with it.  Both actions are total
functions of the state, so neither can fail when run out of order. -/
theorem precondition_repair (tools : Tools) (st : CState) (args : DecisionArgs) :
    (st.tastes = [] →
      (execMergeTastes tools st args).tastes =
        st.user_ids.map tools.tool_get_user_taste ∧
      (execMergeTastes tools st args).merged =
        some (mergeWithOverrides tools
          { st with tastes := st.user_ids.map tools.tool_get_user_taste }
          (args.overrides.getD {}))) ∧
    (st.merged = none →
      (execFindActivities tools st).merged =
        some (plannerMerge tools st.location st.time_window st.listener st.tastes) ∧
      (execFindActivities tools st).raw_candidates =
        tools.tool_find_activities
          (plannerMerge tools st.location st.time_window st.listener st.tastes)) := by
  refine ⟨fun h => ?_, fun h => ?_⟩
  · simp [execMergeTastes, h]
  · simp [execFindActivities, h]

/-- C6 witness: both repairs on the fresh initial state of a concrete
request, whose tastes list is empty and whose merged profile is absent. -/
theorem precondition_repair_witness :
    ((execMergeTastes trivTools (initState trivTools reqZero) {}).tastes =
        (initState trivTools reqZero).user_ids.map trivTools.tool_get_user_taste ∧
      (execMergeTastes trivTools (initState trivTools reqZero) {}).merged =
        some (mergeWithOverrides trivTools
          { initState trivTools reqZero with
            tastes := (initState trivTools reqZero).user_ids.map
              trivTools.tool_get_user_taste }
          (({} : DecisionArgs).overrides.getD {}))) ∧
    ((execFindActivities trivTools (initState trivTools reqZero)).merged =
        some (plannerMerge trivTools (initState trivTools reqZero).location
          (initState trivTools reqZero).time_window
          (initState trivTools reqZero).listener
          (initState trivTools reqZero).tastes) ∧
      (execFindActivities trivTools (initState trivTools reqZero)).raw_candidates =
        trivTools.tool_find_activities
          (plannerMerge trivTools (initState trivTools reqZero).location
            (initState trivTools reqZero).time_window
            (initState trivTools reqZero).listener
            (initState trivTools reqZero).tastes)) :=
  ⟨(precondition_repair trivTools (initState trivTools reqZero) {}).1 rfl,
   (precondition_repair trivTools (initState trivTools reqZero) {}).2 rfl⟩

/-- C7: the budget-level derivation maps a cap to 0/1/2/3/4 on the intervals
(−∞,0], (0,20], (20,45], (45,75], (75,∞), and the price-band mapping sends
free/$/$$/$$$/$$$$ to 0-4, strips and lowercases its input (case-insensitive),
and maps anything else — including a missing band — to no level. -/
theorem budget_price_levels (b : Rat) (s : String) :
    (b ≤ 0 → _budget_to_level b = 0) ∧
    (0 < b → b ≤ 20 → _budget_to_level b = 1) ∧
    (20 < b → b ≤ 45 → _budget_to_level b = 2) ∧
    (45 < b → b ≤ 75 → _budget_to_level b = 3) ∧
    (75 < b → _budget_to_level b = 4) ∧
    _price_to_level (some "free") = some 0 ∧
    _price_to_level (some "$") = some 1 ∧
    _price_to_level (some "$$") = some 2 ∧
    _price_to_level (some "$$$") = some 3 ∧
    _price_to_level (some "$$$$") = some 4 ∧
    _price_to_level none = none ∧
    _price_to_level (some s) = _PRICE_LEVELS.lookup (strLower (strStrip s)) := by
  refine ⟨fun h => ?_, fun h0 h20 => ?_, fun h20 h45 => ?_, fun h45 h75 => ?_,
    fun h75 => ?_, by decide, by decide, by decide, by decide, by decide, rfl, ?_⟩
  · unfold _budget_to_level
    rw [if_pos h]
  · unfold _budget_to_level
    rw [if_neg (not_le.mpr h0), if_pos h20]
  · unfold _budget_to_level
    rw [if_neg (not_le.mpr (lt_trans (by norm_num) h20)),
      if_neg (not_le.mpr h20), if_pos h45]
  · unfold _budget_to_level
    rw [if_neg (not_le.mpr (lt_trans (by norm_num) h45)),
      if_neg (not_le.mpr (lt_trans (by norm_num) h45)),
      if_neg (not_le.mpr h45), if_pos h75]
  · unfold _budget_to_level
    rw [if_neg (not_le.mpr (lt_trans (by norm_num) h75)),
      if_neg (not_le.mpr (lt_trans (by norm_num) h75)),
      if_neg (not_le.mpr (lt_trans (by norm_num) h75)),
      if_neg (not_le.mpr h75)]
  · by_cases hs : s = ""
    · subst hs; decide
    · simp [_price_to_level, hs]

/-- C7 witness: the cap 10 falls in level 1 and the band ` FREE ` maps to
level 0 despite case and whitespace. -/
theorem budget_price_levels_witness :
    0 < (10 : Rat) ∧ (10 : Rat) ≤ 20 ∧ _budget_to_level 10 = 1 ∧
    _price_to_level (some " FREE ") = some 0 :=
  ⟨by decide, by decide,
   (budget_price_levels 10 " FREE ").2.1 (by decide) (by decide),
   ((budget_price_levels 10 " FREE ").2.2.2.2.2.2.2.2.2.2.2).trans (by decide)⟩

/-- The merged profile of C8's scenario as a filters dict for `_event_score`. -/
def c8filters : EventFilters := { vibe := some "music", budget_cap := some 20 }

/-- The candidate of C8's scenario as a catalog event. -/
def c8event : MockEvent :=
  { id := "", title := "", vibe := "music", price := "$", address := "",
    tags := ["indie"], summary := "", source := "" }

/-- The merged profile of C8's scenario for the spec-modelled Ranker. -/
def c8merged : SpecMergedProfile := { vibe := some "music", budget_cap := some 20 }

/-- The candidate of C8's scenario for the spec-modelled Ranker. -/
def c8cand : SpecCandidate :=
  { vibe := some "music", price_band := some "$", tags := ["indie"] }

/-- C8: on the merged profile `vibe="music", budget_cap=20` and the candidate
`vibe="music", price_band=$, tags=[indie]`, the computed score is 3.5 (35
tenths: 2.5 for the exact vibe match plus 1.0 for budget fit, price level
1 ≤ budget level 1), and the spec-modelled Ranker attaches exactly the
reasons `matches your group's music vibe` and `within budget`. -/
theorem music_budget_scenario_score :
    _event_score c8event c8filters = 35 ∧
    pointsOfTenths 35 = 3.5 ∧
    rankerSignals c8merged c8cand =
      (35, ["matches your group's music vibe", "within budget"]) :=
  ⟨by decide, by norm_num [pointsOfTenths], by decide⟩

instance : IsTotal (Int × MockEvent) scoreGE := ⟨fun a b => le_total b.1 a.1⟩

instance : IsTrans (Int × MockEvent) scoreGE := ⟨fun _ _ _ hab hbc => le_trans hbc hab⟩

/-- `pyTake` only ever keeps a sublist. -/
theorem pyTake_sublist {α : Type} (n : Int) (l : List α) : (pyTake n l).Sublist l := by
  unfold pyTake
  split <;> exact List.take_sublist _ _

/-- A non-negative `pyTake` bound caps the length. -/
theorem pyTake_length_le {α : Type} (n : Int) (l : List α) (h : 0 ≤ n) :
    (pyTake n l).length ≤ n.toNat := by
  unfold pyTake
  rw [if_pos h]
  exact List.length_take_le _ _

/-- Every pair in the sorted scored list carries the score of its event. -/
theorem score_pair_inv (q : EventFilters) (l : List MockEvent) :
    ∀ p ∈ List.insertionSort scoreGE (l.map (fun e => (_event_score e q, e))),
      p.1 = _event_score p.2 q := by
  intro p hp
  have hp' : p ∈ l.map (fun e => (_event_score e q, e)) :=
    (List.perm_insertionSort _ _).mem_iff.mp hp
  obtain ⟨e, _, rfl⟩ := List.mem_map.mp hp'
  rfl

/-- The events of the sorted scored list, in order, are pairwise descending
under the score against the query. -/
theorem sorted_scored_pairwise (q : EventFilters) (l : List MockEvent) :
    ((List.insertionSort scoreGE (l.map (fun e => (_event_score e q, e)))).map
      Prod.snd).Pairwise (fun a b => _event_score b q ≤ _event_score a q) := by
  have hs : (List.insertionSort scoreGE
      (l.map (fun e => (_event_score e q, e)))).Pairwise scoreGE :=
    List.sorted_insertionSort scoreGE _
  rw [List.pairwise_map]
  refine hs.imp_of_mem ?_
  intro a b ha hb hr
  have h1 := score_pair_inv q l a ha
  have h2 := score_pair_inv q l b hb
  rw [← h1, ← h2]
  exact hr

/-- Membership in the sorted scored projection comes from the underlying
event list. -/
theorem mem_sorted_scored (q : EventFilters) (l : List MockEvent) (e : MockEvent)
    (h : e ∈ (List.insertionSort scoreGE
      (l.map (fun x => (_event_score x q, x)))).map Prod.snd) : e ∈ l := by
  obtain ⟨p, hp, hpe⟩ := List.mem_map.mp h
  have hp' : p ∈ l.map (fun x => (_event_score x q, x)) :=
    (List.perm_insertionSort _ _).mem_iff.mp hp
  obtain ⟨x, hx, hxp⟩ := List.mem_map.mp hp'
  rw [← hpe, ← hxp]
  exact hx

/-- What passing `_match` means for an event. -/
theorem eventMatches_spec (v q : String) (e : MockEvent)
    (h : eventMatches v q e = true) :
    (v ≠ "" → strLower e.vibe = v) ∧
    (q ≠ "" → pyInStr q (strLower (e.title ++ " " ++ e.summary ++ " " ++ e.address)) = true) := by
  unfold eventMatches at h
  by_cases h1 : v ≠ "" ∧ strLower e.vibe ≠ v
  · rw [if_pos h1] at h
    exact absurd h (by simp)
  · rw [if_neg h1] at h
    by_cases h2 : q ≠ "" ∧
        ¬ (pyInStr q (strLower (e.title ++ " " ++ e.summary ++ " " ++ e.address)) = true)
    · rw [if_pos h2] at h
      exact absurd h (by simp)
    · push_neg at h1 h2
      exact ⟨fun hv => h1 hv, fun hq => h2 hq⟩

/-- C9 (amended): every event `search_mock_events` returns passes the
text/facet filters — a non-empty normalized vibe filter forces a
case-insensitive vibe match and a non-empty normalized `q` must occur in the
lowercased title/summary/address text — and the result is pairwise descending
under `_event_score` against the filters; when the resolved limit (a missing
or zero limit resolves to 25) is non-negative, the result length is at most
that limit. -/
theorem search_respects_filters_sorted_limited (db : MockDB) (filters : EventFilters) :
    (∀ e ∈ search_mock_events db filters,
      (strLower (strStrip (pyOrStr filters.vibe "")) ≠ "" →
        strLower e.vibe = strLower (strStrip (pyOrStr filters.vibe ""))) ∧
      (strLower (strStrip (pyOrStr filters.q "")) ≠ "" →
        pyInStr (strLower (strStrip (pyOrStr filters.q "")))
          (strLower (e.title ++ " " ++ e.summary ++ " " ++ e.address)) = true)) ∧
    (search_mock_events db filters).Pairwise
      (fun a b => _event_score b filters ≤ _event_score a filters) ∧
    (0 ≤ resolvedLimit filters →
      (search_mock_events db filters).length ≤ (resolvedLimit filters).toNat) := by
  refine ⟨?_, ?_, ?_⟩
  · intro e he
    have h1 : e ∈ (List.insertionSort scoreGE
        ((searchFiltered db filters).map (fun x => (_event_score x filters, x)))).map
          Prod.snd :=
      (pyTake_sublist _ _).subset he
    have h2 : e ∈ searchFiltered db filters := mem_sorted_scored _ _ _ h1
    have h3 := (List.mem_filter.mp h2).2
    exact eventMatches_spec _ _ _ h3
  · exact (sorted_scored_pairwise filters (searchFiltered db filters)).sublist
      (pyTake_sublist _ _)
  · intro h
    exact pyTake_length_le _ _ h

/-- A concrete vibe-filtered search used as the C9 witness input. -/
def fMusic : EventFilters := { vibe := some "music" }

/-- C9 witness: the length bound of the theorem discharged on a concrete
vibe-filtered search of the module catalog. -/
theorem search_respects_filters_witness :
    0 ≤ resolvedLimit fMusic ∧
    (search_mock_events _MOCK_EVENTS fMusic).length ≤ (resolvedLimit fMusic).toNat :=
  ⟨by decide,
   (search_respects_filters_sorted_limited _MOCK_EVENTS fMusic).2.2 (by decide)⟩

/-- A filters dict whose `limit` is the (falsy) integer 0. -/
def limitZeroFilters : EventFilters := { limit := some 0 }

/-- C9 counterexample: with `limit = 0`, `int(filters.get("limit") or 25)`
falls back to 25 and the unfiltered search returns all 10 catalog events, so
the result length is NOT at most the given limit. -/
theorem search_limit_zero_cex :
    ¬ (((search_mock_events _MOCK_EVENTS limitZeroFilters).length : Int) ≤ 0) := by
  decide

/-- The module state is returned unchanged by every call sequence. -/
theorem runOps_id : ∀ (ops : List MockOp) (db : MockDB), runOps db ops = db := by
  intro ops
  induction ops with
  | nil => intro db; rfl
  | cons op rest ih => intro db; cases op <;> exact ih db

/-- The scored/sorted/top-20 core of `get_tool_candidates` only returns
members of the events it scored. -/
theorem gtc_core_mem (events : List MockEvent) (q : EventFilters) (e : MockEvent)
    (h : e ∈ ((List.insertionSort scoreGE
      (events.map fun x => (_event_score x q, x))).take 20).map Prod.snd) :
    e ∈ events := by
  obtain ⟨p, hp, hpe⟩ := List.mem_map.mp h
  have hp' : p ∈ List.insertionSort scoreGE (events.map fun x => (_event_score x q, x)) :=
    (List.take_sublist _ _).subset hp
  exact mem_sorted_scored q events e (List.mem_map.mpr ⟨p, hp', hpe⟩)

/-- Every candidate `get_tool_candidates` returns is (a value copy of) an
entry of the catalog it read. -/
theorem gtc_mem_catalog (db : MockDB) (p : String) (q : EventFilters) (e : MockEvent)
    (h : e ∈ get_tool_candidates db p q) :
    e ∈ db.google_places ++ db.eventbrite := by
  unfold get_tool_candidates at h
  split at h
  · simp only [] at h
    split at h
    · exact absurd h (by simp)
    · exact List.mem_append_left _ (gtc_core_mem _ _ _ h)
  · split at h
    · simp only [] at h
      split at h
      · exact absurd h (by simp)
      · exact List.mem_append_right _ (gtc_core_mem _ _ _ h)
    · simp only [] at h
      split at h
      · exact absurd h (by simp)
      · exact absurd (gtc_core_mem _ _ _ h) (by simp)

/-- Every event `search_mock_events` returns is (a value copy of) an entry of
the catalog it read. -/
theorem search_mem_catalog (db : MockDB) (f : EventFilters) (e : MockEvent)
    (h : e ∈ search_mock_events db f) :
    e ∈ db.google_places ++ db.eventbrite := by
  unfold search_mock_events at h
  simp only [] at h
  have h1 : e ∈ searchFiltered db f :=
    mem_sorted_scored _ _ _ ((pyTake_sublist _ _).subset h)
  have h2 : e ∈ searchPool db f := (List.mem_filter.mp h1).1
  unfold searchPool at h2
  simp only [] at h2
  obtain ⟨p, _, hp⟩ := List.mem_flatMap.mp h2
  exact gtc_mem_catalog db p f e hp

/-- C10: neither `get_tool_candidates` nor `search_mock_events` ever changes
the module catalog `_MOCK_EVENTS` — threading the module state through any
sequence of calls returns it unchanged, so a search or candidate fetch gives
the same value-equal result list no matter which calls ran before it, and
every returned event is (a value copy of) a catalog entry.  Object identity
(the freshness of each `dict(event)` copy) is outside a value embedding and
is recorded here only as value-level membership. -/
theorem mock_catalog_never_mutated :
    (∀ ops : List MockOp, runOps _MOCK_EVENTS ops = _MOCK_EVENTS) ∧
    (∀ (ops1 ops2 : List MockOp) (f : EventFilters),
      search_mock_events (runOps _MOCK_EVENTS ops1) f =
        search_mock_events (runOps _MOCK_EVENTS ops2) f) ∧
    (∀ (ops1 ops2 : List MockOp) (p : String) (q : EventFilters),
      get_tool_candidates (runOps _MOCK_EVENTS ops1) p q =
        get_tool_candidates (runOps _MOCK_EVENTS ops2) p q) ∧
    (∀ (p : String) (q : EventFilters) (e : MockEvent),
      e ∈ get_tool_candidates _MOCK_EVENTS p q →
        e ∈ _MOCK_EVENTS.google_places ++ _MOCK_EVENTS.eventbrite) ∧
    (∀ (f : EventFilters) (e : MockEvent),
      e ∈ search_mock_events _MOCK_EVENTS f →
        e ∈ _MOCK_EVENTS.google_places ++ _MOCK_EVENTS.eventbrite) := by
  refine ⟨fun ops => runOps_id ops _, ?_, ?_, ?_, ?_⟩
  · intro ops1 ops2 f
    rw [runOps_id ops1, runOps_id ops2]
  · intro ops1 ops2 p q
    rw [runOps_id ops1, runOps_id ops2]
  · intro p q e h
    exact gtc_mem_catalog _ p q e h
  · intro f e h
    exact search_mem_catalog _ f e h

/-- C10 witness: the top result of a concrete vibe-filtered search is an
entry of the module catalog. -/
theorem mock_catalog_never_mutated_witness :
    (search_mock_events _MOCK_EVENTS fMusic).headD
      { id := "", title := "", vibe := "", price := "", address := "",
        tags := [], summary := "", source := "" } ∈
      search_mock_events _MOCK_EVENTS fMusic ∧
    (search_mock_events _MOCK_EVENTS fMusic).headD
      { id := "", title := "", vibe := "", price := "", address := "",
        tags := [], summary := "", source := "" } ∈
      _MOCK_EVENTS.google_places ++ _MOCK_EVENTS.eventbrite :=
  ⟨by decide, mock_catalog_never_mutated.2.2.2.2 fMusic _ (by decide)⟩
